import Mathlib

/-!
Verification of the UK covid vaccination rollout simulator (`src/model.py`).

The whole program is shallowly embedded below:
* Python integers are modelled as `Int` (arbitrary precision in both).
* Calendar dates are modelled as integer day offsets from `FIRST_VACCINATION_DAY`
  (2020-12-08); `datetime` arithmetic on whole days is exactly offset arithmetic,
  and the ISO-string dict keys of the source are in bijection with offsets.
* Python `dict` values keyed by date are modelled as association lists
  (`List (Int × Int)`) with insert-or-overwrite semantics (`setKey`), matching
  dict update; `dict.get` is `List.lookup`.
* `int(x / y)` on Python ints (float division then truncation toward zero) is
  modelled as `Int.tdiv`, exact truncated division.  For the magnitudes this
  program handles (≤ 10^8) the correctly rounded float quotient truncates to the
  same integer, so the model is faithful.
* Floating point constants (`0.2`, thresholds `0.6` … `0.75`) are modelled as
  exact rationals; at the program's magnitudes the float comparisons agree.
* Raised exceptions are modelled as explicit error results (`Option` / `Except`).
* The unbounded `for`/`break` driver loop is modelled by a fuel-indexed loop
  (`runLoop`) together with the unconditional day-indexed trace `simState`.

The external module `vaccination_record` (not part of the repository sources) only
supplies raw input data; the estimator is therefore verified as a function of an
arbitrary record list.
-/

namespace Model

/-- `JAB_GAP_DAYS = 7 * 12` (src/model.py line 13): the fixed first-to-second dose
interval, 84 days. -/
def JAB_GAP_DAYS : Nat := 7 * 12

/-- `FIRST_VACCINATION_DAY = datetime(2020, 12, 8)` (line 15).  Dates are modelled
as integer day offsets with this date as origin 0. -/
def FIRST_VACCINATION_DAY : Int := 0

/-- `UK_POPULATION = 68_107_747` (line 10). -/
def UK_POPULATION : Int := 68107747

/-- `UK_ADULT_POPULATION = int(UK_POPULATION * (1 - 0.213))` (line 11); the float
computation evaluates to 53600796. -/
def UK_ADULT_POPULATION : Int := 53600796

/-- `PROPORTION_IMMUNE = 0.2` (line 12), modelled as the exact rational. -/
def PROPORTION_IMMUNE : ℚ := 2/10

/-- Python `int()` applied to an exact rational value: truncation toward zero. -/
def intTrunc (q : ℚ) : Int := Int.tdiv q.num (q.den : Int)

/-- The `Population` ledger (src/model.py lines 30-70).  Counter fields are Python
ints (`Int`); `first_dose_by_day` is the per-day first-dose history list. -/
structure Population where
  total : Int
  proportion_immune : ℚ
  second_dose_due : Int
  first_dose_given : Int
  second_dose_given : Int
  first_dose_by_day : List Int
deriving DecidableEq, Repr

/-- `Population.__init__` (lines 32-38): all counters zero, empty history. -/
def Population.init (total : Int) (proportion_immune : ℚ) : Population :=
  ⟨total, proportion_immune, 0, 0, 0, []⟩

/-- Derived property `first_dose_due` (lines 40-42). -/
def Population.first_dose_due (p : Population) : Int := p.total - p.first_dose_given

/-- Derived property `total_vaccinations` (lines 44-46). -/
def Population.total_vaccinations (p : Population) : Int :=
  p.first_dose_given + p.second_dose_given

/-- `update_day` (lines 48-52): append a zero placeholder for today, and if
`day - JAB_GAP_DAYS >= 0` add that past day's first-dose count to
`second_dose_due`.  The read index `day - JAB_GAP_DAYS` is always in range when
called on day `day` of the simulation (the list then has length `day + 1`), so
`getD`'s default is never consulted there. -/
def Population.update_day (p : Population) (day : Nat) : Population :=
  let appended := p.first_dose_by_day ++ [0]
  if JAB_GAP_DAYS ≤ day then
    { p with first_dose_by_day := appended,
             second_dose_due := p.second_dose_due + appended.getD (day - JAB_GAP_DAYS) 0 }
  else
    { p with first_dose_by_day := appended }

/-- `give_first_jab` (lines 54-56).  The write `first_dose_by_day[day] = n` is in
range whenever `update_day` ran first for `day` (the simulation always does). -/
def Population.give_first_jab (p : Population) (day : Nat) (n : Int) : Population :=
  { p with first_dose_given := p.first_dose_given + n,
           first_dose_by_day := p.first_dose_by_day.set day n }

/-- `give_second_jab` (lines 58-60). -/
def Population.give_second_jab (p : Population) (n : Int) : Population :=
  { p with second_dose_due := p.second_dose_due - n,
           second_dose_given := p.second_dose_given + n }

/-- `all_vaxxed` (lines 62-63): `second_dose_given >= total`. -/
def Population.all_vaxxed (p : Population) : Bool :=
  p.total ≤ p.second_dose_given

/-- `partly_immune` (lines 65-67). -/
def Population.partly_immune (p : Population) : Int :=
  p.first_dose_given +
    intTrunc (((p.total - p.first_dose_given : Int) : ℚ) * p.proportion_immune)

/-- `as_prop` (lines 69-70): `n / total` (exact rational; the run always has
`total > 0`). -/
def Population.as_prop (p : Population) (n : Int) : ℚ := (n : ℚ) / (p.total : ℚ)

/-- `vaccinate` (lines 107-116): second doses take strict priority, first doses
get the remainder, leftovers are dropped (`jabs` is a local). -/
def vaccinate (day : Nat) (population : Population) (jabs : Int) : Population :=
  let second_jabs := min population.second_dose_due jabs
  let pj : Population × Int :=
    if second_jabs ≠ 0 then (population.give_second_jab second_jabs, jabs - second_jabs)
    else (population, jabs)
  let first_jabs := min pj.1.first_dose_due pj.2
  if first_jabs ≠ 0 then pj.1.give_first_jab day first_jabs else pj.1

/-- A `Milestone` (lines 18-27): a description, a predicate over the ledger, and
the sticky `passed` flag. -/
structure Milestone where
  description : String
  condition : Population → Bool
  passed : Bool

/-- `Milestone.check` (lines 25-27): store and return the predicate's value. -/
def Milestone.check (m : Milestone) (population : Population) : Milestone × Bool :=
  let passed := m.condition population
  ({ m with passed := passed }, passed)

/-- Body of the `for milestone in milestones` loop of
`get_newly_passed_milestones` (lines 119-130), processing the tail of the list
starting at position `idx`; `lastIdx` is the position of `milestones[-1]` and
`day` the (mutable, in the source) report date.  Output pairs identify a
milestone by its position in the list. -/
def gnpAux (population : Population) :
    List Milestone → Nat → Nat → Int → List Milestone × List (Int × Nat)
  | [], _, _, _ => ([], [])
  | m :: rest, idx, lastIdx, day =>
    if m.passed then
      let r := gnpAux population rest (idx + 1) lastIdx day
      (m :: r.1, r.2)
    else
      let c := m.check population
      if c.2 then
        let day2 := if idx = lastIdx then day + 14 else day
        let r := gnpAux population rest (idx + 1) lastIdx day2
        (c.1 :: r.1, (day2, idx) :: r.2)
      else
        let r := gnpAux population rest (idx + 1) lastIdx day
        (c.1 :: r.1, r.2)

/-- `get_newly_passed_milestones` (lines 119-130).  `milestone is milestones[-1]`
is the position test `idx = length - 1` (the run's milestones are distinct
objects), and `day + timedelta(weeks=2)` is `day + 14`. -/
def get_newly_passed_milestones (population : Population) (day : Int)
    (milestones : List Milestone) : List Milestone × List (Int × Nat) :=
  gnpAux population milestones 0 (milestones.length - 1) day

/-- The state carried by the driver loop `run` (lines 86-100): the ledger, the
milestone list (with sticky flags), and the accumulated output log. -/
structure SimState where
  pop : Population
  milestones : List Milestone
  log : List (Int × Nat)

/-- One iteration of the `run` loop (lines 90-97) for day index `i`:
`update_day`, then `vaccinate` with the day's supply, then milestone evaluation,
extending the output log. -/
def stepDay (supply : Nat → Int) (i : Nat) (s : SimState) : SimState :=
  let p1 := s.pop.update_day i
  let p2 := vaccinate i p1 (supply i)
  let r := get_newly_passed_milestones p2 (i : Int) s.milestones
  ⟨p2, r.1, s.log ++ r.2⟩

/-- The unconditional day trace: `simState supply ms0 pop0 n` is the state after
the first `n` days have been processed (ignoring the `break`). -/
def simState (supply : Nat → Int) (ms0 : List Milestone) (pop0 : Population) :
    Nat → SimState
  | 0 => ⟨pop0, ms0, []⟩
  | n + 1 => stepDay supply n (simState supply ms0 pop0 n)

/-- The `run` loop with its `break` on `all_vaxxed` (lines 90-100), made total by
a fuel bound on the number of days (the source loop is unbounded). -/
def runLoop (supply : Nat → Int) : Nat → Nat → SimState → SimState
  | 0, _, s => s
  | fuel + 1, i, s =>
    let s2 := stepDay supply i s
    if s2.pop.all_vaxxed then s2 else runLoop supply fuel (i + 1) s2

/-- The milestone list of `run` (lines 74-84), thresholds as exact rationals. -/
def runMilestones : List Milestone :=
  [⟨"60% 1st vax", fun pop => decide (pop.as_prop pop.first_dose_given ≥ 6/10), false⟩,
   ⟨"70% 1st vax", fun pop => decide (pop.as_prop pop.first_dose_given ≥ 7/10), false⟩,
   ⟨"80% 1st vax", fun pop => decide (pop.as_prop pop.first_dose_given ≥ 8/10), false⟩,
   ⟨"100% 1st vax", fun pop => decide (pop.as_prop pop.first_dose_given ≥ 1), false⟩,
   ⟨"60% 2nd vax", fun pop => decide (pop.as_prop pop.second_dose_given ≥ 6/10), false⟩,
   ⟨"70% 2nd vax", fun pop => decide (pop.as_prop pop.second_dose_given ≥ 7/10), false⟩,
   ⟨"80% 2nd vax", fun pop => decide (pop.as_prop pop.second_dose_given ≥ 8/10), false⟩,
   ⟨"100% 2nd vax", fun pop => decide (pop.as_prop pop.second_dose_given ≥ 1), false⟩,
   ⟨"Bare R <1?", fun pop => decide (pop.as_prop pop.partly_immune ≥ 75/100), false⟩]

/-- One raw entry of `vaccination_record.data['data']` (lines 141-151), with its
two optional dose-count fields; an absent key is `none`. -/
structure VaccinationRecord where
  date : Int
  newPeopleVaccinatedFirstDoseByPublishDate : Option Int
  cumPeopleVaccinatedFirstDoseByPublishDate : Option Int
deriving DecidableEq, Repr

/-- The per-record figure (lines 146-150):
`record.get('new…') or record['cum…']` — the daily figure when present and
nonzero (Python truthiness), else the cumulative figure; `none` models the
`KeyError` when the cumulative key is also absent. -/
def recordTotal (r : VaccinationRecord) : Option Int :=
  match r.newPeopleVaccinatedFirstDoseByPublishDate with
  | some v =>
    if v ≠ 0 then some v else r.cumPeopleVaccinatedFirstDoseByPublishDate
  | none => r.cumPeopleVaccinatedFirstDoseByPublishDate

/-- `dict` store `m[k] = v`: overwrite in place if the key exists, else append. -/
def setKey (m : List (Int × Int)) (k v : Int) : List (Int × Int) :=
  if (m.lookup k).isSome then m.map (fun p => if p.1 = k then (k, v) else p)
  else m ++ [(k, v)]

/-- The `for record in data` accumulation loop (lines 143-151) building
`recorded_days_to_totals`, starting from accumulator `acc`. -/
def recordedDaysToTotalsAux (acc : List (Int × Int)) :
    List VaccinationRecord → Option (List (Int × Int))
  | [] => some acc
  | r :: rs =>
    match recordTotal r with
    | none => none
    | some t => recordedDaysToTotalsAux (setKey acc r.date t) rs

/-- `recorded_days_to_totals` (lines 143-151) as a function of the raw data;
`none` models the `KeyError` raised on a record missing both dose fields. -/
def recordedDaysToTotals (data : List VaccinationRecord) :
    Option (List (Int × Int)) :=
  recordedDaysToTotalsAux [] data

/-- The keys of an association list. -/
def assocKeys (m : List (Int × Int)) : List Int := m.map Prod.fst

/-- `days_in_order = sorted(recorded_days_to_totals.keys())` (line 153).  The
keys are distinct, so any sorting algorithm produces the same list. -/
def daysInOrder (rm : List (Int × Int)) : List Int :=
  List.insertionSort (· ≤ ·) (assocKeys rm)

/-- `mean_first_period = int(total_to_first_recorded_day / days_covered)`
(lines 155-159). -/
def meanFirstPeriod (rm : List (Int × Int)) (firstRecorded : Int) : Int :=
  Int.tdiv ((rm.lookup firstRecorded).getD 0) (firstRecorded - FIRST_VACCINATION_DAY)

/-- `last_7_day_mean` (lines 161-163): the mean of the values of the (up to) 7
largest recorded dates, truncated. -/
def last7DayMean (rm : List (Int × Int)) : Int :=
  let days := daysInOrder rm
  let last7 := days.drop (days.length - 7)
  let vals := last7.map (fun d => (rm.lookup d).getD 0)
  Int.tdiv vals.sum (vals.length : Int)

/-- `date_range(FIRST_VACCINATION_DAY, first_recorded_datetime, inclusive=True)`
(lines 170 and 179-182): the dates from the start date to the first recorded
date inclusive; empty when the first recorded date is earlier. -/
def earlyDays (firstRecorded : Int) : List Int :=
  (List.range (firstRecorded - FIRST_VACCINATION_DAY + 1).toNat).map
    (fun n : Nat => FIRST_VACCINATION_DAY + (n : Int))

/-- The `iso_dates_to_totals` store loops (lines 167-175): first every early day
is bound to `mean_first_period`, then every recorded day after the first to its
recorded value. -/
def buildTable (rm : List (Int × Int)) (firstRecorded : Int) (rest : List Int) :
    List (Int × Int) :=
  let t1 := (earlyDays firstRecorded).foldl
    (fun m d => setKey m d (meanFirstPeriod rm firstRecorded)) []
  rest.foldl (fun m d => setKey m d ((rm.lookup d).getD 0)) t1

/-- The exceptions `get_vaccine_data` can raise, in program order: a `KeyError`
from a record missing both dose fields (line 150), an `IndexError` from
`days_in_order[0]` on an empty record set (line 155), and a `ZeroDivisionError`
from `int(total / 0)` (line 159). -/
inductive DataError where
  | keyError
  | indexError
  | zeroDivisionError
deriving DecidableEq, Repr

/-- `get_vaccine_data` (lines 139-177): returns the date table together with
`last_7_day_mean`, or the first exception raised. -/
def get_vaccine_data (data : List VaccinationRecord) :
    Except DataError (List (Int × Int) × Int) :=
  match recordedDaysToTotals data with
  | none => Except.error DataError.keyError
  | some rm =>
    match daysInOrder rm with
    | [] => Except.error DataError.indexError
    | firstRecorded :: rest =>
      if firstRecorded - FIRST_VACCINATION_DAY = 0 then
        Except.error DataError.zeroDivisionError
      else
        Except.ok (buildTable rm firstRecorded rest, last7DayMean rm)

/-- `get_vaccines` (lines 133-136): `dates_to_totals.get(iso_date) or
last_7_day_mean` — the stored value when present and nonzero (Python
truthiness), else the mean.  The memoized `get_vaccine_data()` pair is passed
explicitly. -/
def get_vaccines (dates_to_totals : List (Int × Int)) (last_7_day_mean : Int)
    (day : Int) : Int :=
  match dates_to_totals.lookup day with
  | some v => if v ≠ 0 then v else last_7_day_mean
  | none => last_7_day_mean

/-- The composed supply query: what `get_vaccines` answers for `day` given raw
`data`, or `none` when `get_vaccine_data` raises. -/
def vaccinesFor (data : List VaccinationRecord) (day : Int) : Option Int :=
  match get_vaccine_data data with
  | Except.ok tm => some (get_vaccines tm.1 tm.2 day)
  | Except.error _ => none

/-- The value `recorded_days_to_totals` records for `day`, if any. -/
def recordedValue (data : List VaccinationRecord) (day : Int) : Option Int :=
  (recordedDaysToTotals data).bind (fun rm => rm.lookup day)

/-- The ledger state after the first `n` simulated days. -/
def popAfter (supply : Nat → Int) (ms0 : List Milestone) (pop0 : Population)
    (n : Nat) : Population :=
  (simState supply ms0 pop0 n).pop

/-- An inert milestone used as the out-of-range default of `milestoneAt`: its
predicate never holds and its flag is unset. -/
def dummyMilestone : Milestone := ⟨"", fun _ => false, false⟩

/-- The milestone at position `i` after the first `n` simulated days. -/
def milestoneAt (supply : Nat → Int) (ms0 : List Milestone) (pop0 : Population)
    (n : Nat) (i : Nat) : Milestone :=
  (simState supply ms0 pop0 n).milestones.getD i dummyMilestone

/-- The number of doses given as first doses on day `d`: the entry the
simulation records at `first_dose_by_day[d]`. -/
def firstDosesOn (supply : Nat → Int) (ms0 : List Milestone) (pop0 : Population)
    (d : Nat) : Int :=
  (popAfter supply ms0 pop0 (d + 1)).first_dose_by_day.getD d 0

/-- The amount `update_day` adds to `second_dose_due` when it runs for day `e`. -/
def dueAddedOn (supply : Nat → Int) (ms0 : List Milestone) (pop0 : Population)
    (e : Nat) : Int :=
  ((popAfter supply ms0 pop0 e).update_day e).second_dose_due
    - (popAfter supply ms0 pop0 e).second_dose_due

/-- The effect of one `milestone.check` visit on a milestone: already-passed
milestones are skipped, the rest store their predicate's current value. -/
def checkPassed (population : Population) (m : Milestone) : Milestone :=
  if m.passed then m else (m.check population).1

/-- The `(report date, milestone position)` pairs newly recorded on simulated
day `j`. -/
def outOn (supply : Nat → Int) (ms0 : List Milestone) (pop0 : Population)
    (j : Nat) : List (Int × Nat) :=
  (get_newly_passed_milestones (popAfter supply ms0 pop0 (j + 1)) (j : Int)
    (simState supply ms0 pop0 j).milestones).2

/-- The ledger invariant maintained by the simulation: after `n` processed days,
the history has one entry per day, all entries are non-negative dose counts
summing to `first_dose_given`, and the doses already due or given as second
doses are exactly the first doses that are at least `JAB_GAP_DAYS` old. -/
def PopInv (n : Nat) (p : Population) : Prop :=
  p.first_dose_by_day.length = n ∧
  (∀ x ∈ p.first_dose_by_day, 0 ≤ x) ∧
  p.first_dose_by_day.sum = p.first_dose_given ∧
  p.second_dose_given + p.second_dose_due
    = (p.first_dose_by_day.take (n - JAB_GAP_DAYS)).sum ∧
  0 ≤ p.second_dose_due ∧
  0 ≤ p.second_dose_given ∧
  p.first_dose_given ≤ p.total

/-- A one-element milestone list used for concrete instantiations: its predicate
holds once anyone has received a first dose. -/
def witnessMilestones : List Milestone :=
  [⟨"A", fun p => decide (1 ≤ p.first_dose_given), false⟩]

/-- Concrete record set: eight dated records, the last of which records the
value 0 (daily figure 0, cumulative figure 0). -/
def c6Data : List VaccinationRecord :=
  [⟨1, none, some 138⟩, ⟨2, some 10, none⟩, ⟨3, some 10, none⟩, ⟨4, some 10, none⟩,
   ⟨5, some 10, none⟩, ⟨6, some 10, none⟩, ⟨7, some 10, none⟩, ⟨8, some 0, some 0⟩]

/-- Concrete record set whose first record's cumulative value (3) is smaller
than the number of days it covers (5), so the early flat mean truncates to 0. -/
def c7Data : List VaccinationRecord :=
  [⟨5, none, some 3⟩, ⟨6, some 10, none⟩, ⟨7, some 10, none⟩]

/-- Concrete record set whose single record is dated one day before the
simulation start date. -/
def c10Data : List VaccinationRecord := [⟨-1, none, some 10⟩]

/-! ### Field characterizations of the ledger operations -/

theorem vaccinate_total (day : Nat) (p : Population) (jabs : Int) :
    (vaccinate day p jabs).total = p.total := by
  simp only [vaccinate, Population.give_second_jab, Population.give_first_jab,
    Population.first_dose_due]
  split_ifs <;> rfl

theorem vaccinate_proportion (day : Nat) (p : Population) (jabs : Int) :
    (vaccinate day p jabs).proportion_immune = p.proportion_immune := by
  simp only [vaccinate, Population.give_second_jab, Population.give_first_jab,
    Population.first_dose_due]
  split_ifs <;> rfl

theorem vaccinate_second_given (day : Nat) (p : Population) (jabs : Int) :
    (vaccinate day p jabs).second_dose_given
      = p.second_dose_given + min p.second_dose_due jabs := by
  simp only [vaccinate, Population.give_second_jab, Population.give_first_jab,
    Population.first_dose_due]
  split_ifs <;> simp_all

theorem vaccinate_second_due (day : Nat) (p : Population) (jabs : Int) :
    (vaccinate day p jabs).second_dose_due
      = p.second_dose_due - min p.second_dose_due jabs := by
  simp only [vaccinate, Population.give_second_jab, Population.give_first_jab,
    Population.first_dose_due]
  split_ifs <;> simp_all

theorem vaccinate_first_given (day : Nat) (p : Population) (jabs : Int) :
    (vaccinate day p jabs).first_dose_given
      = p.first_dose_given
        + min p.first_dose_due (jabs - min p.second_dose_due jabs) := by
  simp only [vaccinate, Population.give_second_jab, Population.give_first_jab,
    Population.first_dose_due]
  split_ifs <;> simp_all

theorem vaccinate_by_day (day : Nat) (p : Population) (jabs : Int) :
    (vaccinate day p jabs).first_dose_by_day
      = (if min p.first_dose_due (jabs - min p.second_dose_due jabs) = 0
         then p.first_dose_by_day
         else p.first_dose_by_day.set day
           (min p.first_dose_due (jabs - min p.second_dose_due jabs))) := by
  simp only [vaccinate, Population.give_second_jab, Population.give_first_jab,
    Population.first_dose_due]
  split_ifs <;> simp_all

theorem vaccinate_by_day_length (day : Nat) (p : Population) (jabs : Int) :
    (vaccinate day p jabs).first_dose_by_day.length
      = p.first_dose_by_day.length := by
  rw [vaccinate_by_day]
  split_ifs <;> simp

theorem update_day_by_day (p : Population) (day : Nat) :
    (p.update_day day).first_dose_by_day = p.first_dose_by_day ++ [0] := by
  simp only [Population.update_day]
  split_ifs <;> rfl

theorem update_day_due (p : Population) (day : Nat) :
    (p.update_day day).second_dose_due
      = p.second_dose_due
        + (if JAB_GAP_DAYS ≤ day
           then (p.first_dose_by_day ++ [0]).getD (day - JAB_GAP_DAYS) 0
           else 0) := by
  simp only [Population.update_day]
  split_ifs <;> simp

theorem update_day_total (p : Population) (day : Nat) :
    (p.update_day day).total = p.total := by
  simp only [Population.update_day]
  split_ifs <;> rfl

theorem update_day_proportion (p : Population) (day : Nat) :
    (p.update_day day).proportion_immune = p.proportion_immune := by
  simp only [Population.update_day]
  split_ifs <;> rfl

theorem update_day_first_given (p : Population) (day : Nat) :
    (p.update_day day).first_dose_given = p.first_dose_given := by
  simp only [Population.update_day]
  split_ifs <;> rfl

theorem update_day_second_given (p : Population) (day : Nat) :
    (p.update_day day).second_dose_given = p.second_dose_given := by
  simp only [Population.update_day]
  split_ifs <;> rfl

/-! ### Trace lemmas for the ledger -/

theorem popAfter_zero (supply : Nat → Int) (ms0 : List Milestone) (pop0 : Population) :
    popAfter supply ms0 pop0 0 = pop0 := rfl

theorem popAfter_succ (supply : Nat → Int) (ms0 : List Milestone) (pop0 : Population)
    (n : Nat) :
    popAfter supply ms0 pop0 (n + 1)
      = vaccinate n ((popAfter supply ms0 pop0 n).update_day n) (supply n) := rfl

theorem popAfter_length (supply : Nat → Int) (ms0 : List Milestone) (pop0 : Population) :
    ∀ n, (popAfter supply ms0 pop0 n).first_dose_by_day.length
      = pop0.first_dose_by_day.length + n := by
  intro n
  induction n with
  | zero => rfl
  | succ n ih =>
    rw [popAfter_succ, vaccinate_by_day_length, update_day_by_day]
    simp [ih]
    omega

theorem update_day_first_dose_due (p : Population) (day : Nat) :
    (p.update_day day).first_dose_due = p.first_dose_due := by
  simp only [Population.first_dose_due, update_day_total, update_day_first_given]

theorem popAfter_by_day_succ (supply : Nat → Int) (ms0 : List Milestone)
    (pop0 : Population) (hp : pop0.first_dose_by_day = []) (n : Nat) :
    (popAfter supply ms0 pop0 (n + 1)).first_dose_by_day
      = (popAfter supply ms0 pop0 n).first_dose_by_day
        ++ [(popAfter supply ms0 pop0 (n + 1)).first_dose_given
            - (popAfter supply ms0 pop0 n).first_dose_given] := by
  have hlen : (popAfter supply ms0 pop0 n).first_dose_by_day.length = n := by
    simp [popAfter_length, hp]
  rw [popAfter_succ, vaccinate_by_day, vaccinate_first_given, update_day_first_given,
    update_day_by_day]
  split_ifs with h
  · rw [h]
    simp
  · rw [List.set_append]
    simp [hlen]

theorem popAfter_getD_stable (supply : Nat → Int) (ms0 : List Milestone)
    (pop0 : Population) (hp : pop0.first_dose_by_day = []) (d n : Nat) (h : d < n) :
    (popAfter supply ms0 pop0 (n + 1)).first_dose_by_day.getD d 0
      = (popAfter supply ms0 pop0 n).first_dose_by_day.getD d 0 := by
  have hlen : (popAfter supply ms0 pop0 n).first_dose_by_day.length = n := by
    simp [popAfter_length, hp]
  rw [popAfter_by_day_succ supply ms0 pop0 hp n, List.getD_append]
  omega

theorem firstDosesOn_stable (supply : Nat → Int) (ms0 : List Milestone)
    (pop0 : Population) (hp : pop0.first_dose_by_day = []) (d : Nat) :
    ∀ k, (popAfter supply ms0 pop0 (d + 1 + k)).first_dose_by_day.getD d 0
      = firstDosesOn supply ms0 pop0 d := by
  intro k
  induction k with
  | zero => rfl
  | succ k ih =>
    have : d < d + 1 + k := by omega
    rw [show d + 1 + (k + 1) = (d + 1 + k) + 1 by omega,
      popAfter_getD_stable supply ms0 pop0 hp d (d + 1 + k) this, ih]

theorem dueAddedOn_eq (supply : Nat → Int) (ms0 : List Milestone) (pop0 : Population)
    (hp : pop0.first_dose_by_day = []) (e : Nat) :
    dueAddedOn supply ms0 pop0 e
      = (if JAB_GAP_DAYS ≤ e
         then (popAfter supply ms0 pop0 e).first_dose_by_day.getD (e - JAB_GAP_DAYS) 0
         else 0) := by
  have hlen : (popAfter supply ms0 pop0 e).first_dose_by_day.length = e := by
    simp [popAfter_length, hp]
  unfold dueAddedOn
  rw [update_day_due]
  split_ifs with h
  · have hidx : e - JAB_GAP_DAYS
        < (popAfter supply ms0 pop0 e).first_dose_by_day.length := by
      rw [hlen]
      simp only [JAB_GAP_DAYS] at h ⊢
      omega
    rw [List.getD_append _ _ _ _ hidx]
    omega
  · omega

/-! ### Claims C1 and C2 -/

/-- Claim C1: for every day with available supply `jabs`, `vaccinate` administers
exactly `min(second_dose_due, jabs)` second doses first, then
`min(first_dose_due, jabs - second doses administered)` first doses, and the
remaining supply is discarded — the resulting ledger is fully determined by
those two quantities, with no field banking the leftover.  In particular, when
`first_dose_due = 0`, `second_dose_due = 30` and `jabs = 50`, exactly 30 second
doses and no first doses are given, and 20 doses are discarded. -/
theorem claim_C1 :
    (∀ (day : Nat) (population : Population) (jabs : Int),
      (vaccinate day population jabs).second_dose_given
          = population.second_dose_given + min population.second_dose_due jabs ∧
      (vaccinate day population jabs).second_dose_due
          = population.second_dose_due - min population.second_dose_due jabs ∧
      (vaccinate day population jabs).first_dose_given
          = population.first_dose_given
            + min population.first_dose_due
                (jabs - min population.second_dose_due jabs) ∧
      (vaccinate day population jabs).total = population.total ∧
      (vaccinate day population jabs).proportion_immune
          = population.proportion_immune ∧
      (vaccinate day population jabs).first_dose_by_day
          = (if min population.first_dose_due
                  (jabs - min population.second_dose_due jabs) = 0
             then population.first_dose_by_day
             else population.first_dose_by_day.set day
               (min population.first_dose_due
                 (jabs - min population.second_dose_due jabs)))) ∧
    (∀ (day : Nat) (population : Population),
      population.first_dose_due = 0 → population.second_dose_due = 30 →
      (vaccinate day population 50).second_dose_given
          = population.second_dose_given + 30 ∧
      (vaccinate day population 50).first_dose_given
          = population.first_dose_given ∧
      (50 : Int) - ((vaccinate day population 50).total_vaccinations
          - population.total_vaccinations) = 20) := by
  constructor
  · intro day population jabs
    exact ⟨vaccinate_second_given day population jabs,
      vaccinate_second_due day population jabs,
      vaccinate_first_given day population jabs,
      vaccinate_total day population jabs,
      vaccinate_proportion day population jabs,
      vaccinate_by_day day population jabs⟩
  · intro day population h1 h2
    have hsg := vaccinate_second_given day population 50
    have hfg := vaccinate_first_given day population 50
    rw [h2] at hsg
    rw [h1, h2] at hfg
    have htv : (vaccinate day population 50).total_vaccinations
        = (vaccinate day population 50).first_dose_given
          + (vaccinate day population 50).second_dose_given := rfl
    have htv2 : population.total_vaccinations
        = population.first_dose_given + population.second_dose_given := rfl
    refine ⟨by omega, by omega, ?_⟩
    rw [htv, htv2]
    omega

/-- Witness for C1: the concrete scenario of the claim, with a ledger holding
`total = 5`, `first_dose_given = 5` (so `first_dose_due = 0`) and
`second_dose_due = 30`. -/
theorem claim_C1_witness :
    Population.first_dose_due ⟨5, 2/10, 30, 5, 0, [0]⟩ = 0 ∧
    Population.second_dose_due ⟨5, 2/10, 30, 5, 0, [0]⟩ = 30 ∧
    (vaccinate 0 ⟨5, 2/10, 30, 5, 0, [0]⟩ 50).second_dose_given = 30 := by
  refine ⟨by decide, by decide, ?_⟩
  have h := (claim_C1.2 0 ⟨5, 2/10, 30, 5, 0, [0]⟩ (by decide) (by decide)).1
  simpa using h

/-- Claim C2: `n` doses given as first doses on day `d` are added to
`second_dose_due` exactly when `update_day` runs for day `d + JAB_GAP_DAYS`
(84 days, 12 weeks later), and the day-advance adds nothing at all during the
first 84 days — so day `d`'s doses are never added earlier.  The third conjunct
identifies the recorded history entry with the first-dose counter's increase on
day `d`. -/
theorem claim_C2 (supply : Nat → Int) (ms0 : List Milestone) (total : Int)
    (pI : ℚ) (d : Nat) :
    dueAddedOn supply ms0 (Population.init total pI) (d + JAB_GAP_DAYS)
        = firstDosesOn supply ms0 (Population.init total pI) d ∧
    (∀ e, e < JAB_GAP_DAYS → dueAddedOn supply ms0 (Population.init total pI) e = 0) ∧
    firstDosesOn supply ms0 (Population.init total pI) d
        = (popAfter supply ms0 (Population.init total pI) (d + 1)).first_dose_given
          - (popAfter supply ms0 (Population.init total pI) d).first_dose_given := by
  have hp : (Population.init total pI).first_dose_by_day = [] := rfl
  refine ⟨?_, ?_, ?_⟩
  · rw [dueAddedOn_eq supply ms0 (Population.init total pI) hp]
    rw [if_pos (by omega)]
    have h1 : d + JAB_GAP_DAYS - JAB_GAP_DAYS = d := by omega
    have h2 : d + JAB_GAP_DAYS = d + 1 + (JAB_GAP_DAYS - 1) := by
      simp only [JAB_GAP_DAYS]
    rw [h1, h2, firstDosesOn_stable supply ms0 (Population.init total pI) hp d]
  · intro e he
    rw [dueAddedOn_eq supply ms0 (Population.init total pI) hp, if_neg (by omega)]
  · have hlen : (popAfter supply ms0 (Population.init total pI) d).first_dose_by_day.length
        = d := by simp [popAfter_length, hp]
    unfold firstDosesOn
    rw [popAfter_by_day_succ supply ms0 (Population.init total pI) hp d,
      List.getD_eq_getElem?_getD, List.getElem?_append_right (by omega)]
    simp [hlen]

/-- Witness for C2: with constant supply 2, no milestones and a one-person
population, the day-advance adds nothing on day 0 (< 84). -/
theorem claim_C2_witness :
    dueAddedOn (fun _ => 2) [] (Population.init 1 0) 0 = 0 :=
  (claim_C2 (fun _ => 2) [] 1 0 0).2.1 0 (by decide)

/-! ### The ledger invariant (claim C3) -/

theorem popInv_step (n : Nat) (p : Population) (jabs : Int)
    (hinv : PopInv n p) (hj : 0 ≤ jabs) :
    PopInv (n + 1) (vaccinate n (p.update_day n) jabs) := by
  obtain ⟨hlen, hnn, hsum, hdue, hd0, hs0, hft⟩ := hinv
  set q := p.update_day n with hqdef
  have hqli : q.first_dose_by_day = p.first_dose_by_day ++ [0] := update_day_by_day p n
  have hqfg : q.first_dose_given = p.first_dose_given := update_day_first_given p n
  have hqsg : q.second_dose_given = p.second_dose_given := update_day_second_given p n
  have hqt : q.total = p.total := update_day_total p n
  set A := (if JAB_GAP_DAYS ≤ n
      then (p.first_dose_by_day ++ [0]).getD (n - JAB_GAP_DAYS) 0 else 0) with hAdef
  have hA : q.second_dose_due = p.second_dose_due + A := update_day_due p n
  have hA0 : 0 ≤ A := by
    rw [hAdef]
    split_ifs with hn
    · have hidx : n - JAB_GAP_DAYS < p.first_dose_by_day.length := by
        simp only [JAB_GAP_DAYS] at hn ⊢
        omega
      rw [List.getD_append _ _ _ _ hidx, List.getD_eq_getElem _ _ hidx]
      exact hnn _ (List.getElem_mem hidx)
    · exact le_refl 0
  set sj := min q.second_dose_due jabs with hsj
  set fj := min q.first_dose_due (jabs - sj) with hfjdef
  have h1 : (vaccinate n q jabs).second_dose_given = q.second_dose_given + sj :=
    vaccinate_second_given n q jabs
  have h2 : (vaccinate n q jabs).second_dose_due = q.second_dose_due - sj :=
    vaccinate_second_due n q jabs
  have h3 : (vaccinate n q jabs).first_dose_given = q.first_dose_given + fj :=
    vaccinate_first_given n q jabs
  have h4 : (vaccinate n q jabs).total = q.total := vaccinate_total n q jabs
  have hli : (vaccinate n q jabs).first_dose_by_day = p.first_dose_by_day ++ [fj] := by
    rw [hfjdef, hsj, vaccinate_by_day, hqli]
    split_ifs with h
    · rw [h]
    · rw [List.set_append, if_neg (by omega)]
      simp [hlen]
  have hsj0 : 0 ≤ sj := by
    rw [hsj]
    exact le_min (by omega) hj
  have hsjd : sj ≤ q.second_dose_due := min_le_left _ _
  have hsjj : sj ≤ jabs := min_le_right _ _
  have hfd : q.first_dose_due = p.total - p.first_dose_given := by
    rw [Population.first_dose_due, hqt, hqfg]
  have hfj0 : 0 ≤ fj := by
    rw [hfjdef]
    exact le_min (by omega) (by omega)
  have hfjb : fj ≤ p.total - p.first_dose_given := by
    rw [hfjdef, hfd] at *
    exact min_le_left _ _
  refine ⟨?_, ?_, ?_, ?_, ?_, ?_, ?_⟩
  · rw [hli]
    simp [hlen]
  · rw [hli]
    intro x hx
    rcases List.mem_append.mp hx with hx | hx
    · exact hnn x hx
    · rw [List.mem_singleton] at hx
      rw [hx]
      exact hfj0
  · rw [hli, List.sum_append, h3, hqfg, ← hsum]
    simp
  · rw [h1, h2, hli]
    have hmain : q.second_dose_given + sj + (q.second_dose_due - sj)
        = p.second_dose_given + p.second_dose_due + A := by
      rw [hqsg, hA]
      ring
    by_cases hn : JAB_GAP_DAYS ≤ n
    · have hidx : n - JAB_GAP_DAYS < p.first_dose_by_day.length := by
        simp only [JAB_GAP_DAYS] at hn ⊢
        omega
      have hAval : A = p.first_dose_by_day.getD (n - JAB_GAP_DAYS) 0 := by
        rw [hAdef, if_pos hn, List.getD_append _ _ _ _ hidx]
      have hk : n + 1 - JAB_GAP_DAYS = (n - JAB_GAP_DAYS) + 1 := by
        simp only [JAB_GAP_DAYS] at hn ⊢
        omega
      have htake : (p.first_dose_by_day ++ [fj]).take ((n - JAB_GAP_DAYS) + 1)
          = p.first_dose_by_day.take ((n - JAB_GAP_DAYS) + 1) := by
        rw [List.take_append_eq_append_take]
        have hz : (n - JAB_GAP_DAYS) + 1 - p.first_dose_by_day.length = 0 := by
          simp only [JAB_GAP_DAYS] at hn ⊢
          omega
        rw [hz]
        simp
      rw [hk, htake, List.sum_take_succ _ _ hidx, hmain, hdue, hAval,
        List.getD_eq_getElem _ _ hidx]
    · have hAz : A = 0 := by rw [hAdef, if_neg hn]
      have h1' : n + 1 - JAB_GAP_DAYS = 0 := by
        simp only [JAB_GAP_DAYS] at hn ⊢
        omega
      have h2' : n - JAB_GAP_DAYS = 0 := by
        simp only [JAB_GAP_DAYS] at hn ⊢
        omega
      rw [h1', hmain, hdue, h2', hAz]
      simp
  · rw [h2]
    omega
  · rw [h1, hqsg]
    omega
  · rw [h3, h4, hqfg, hqt]
    omega

theorem popAfter_inv (supply : Nat → Int) (ms0 : List Milestone) (total : Int)
    (pI : ℚ) (ht : 0 ≤ total) (hs : ∀ i, 0 ≤ supply i) :
    ∀ n, PopInv n (popAfter supply ms0 (Population.init total pI) n) := by
  intro n
  induction n with
  | zero =>
    exact ⟨rfl, fun x hx => absurd hx (List.not_mem_nil x), rfl, rfl,
      le_refl 0, le_refl 0, ht⟩
  | succ n ih =>
    rw [popAfter_succ]
    exact popInv_step n _ (supply n) ih (hs n)

/-- Claim C3: after each simulated day's processing (day advance followed by the
priority allocation), every reachable ledger state satisfies
`second_dose_given ≤ first_dose_given ≤ total`,
`total_vaccinations = first_dose_given + second_dose_given`, and
`total_vaccinations ≤ 2 * total`, provided the population is non-negative and
each day's supply is non-negative. -/
theorem claim_C3 (supply : Nat → Int) (ms0 : List Milestone) (total : Int)
    (pI : ℚ) (n : Nat) (ht : 0 ≤ total) (hs : ∀ i, 0 ≤ supply i) :
    (popAfter supply ms0 (Population.init total pI) n).second_dose_given
        ≤ (popAfter supply ms0 (Population.init total pI) n).first_dose_given ∧
    (popAfter supply ms0 (Population.init total pI) n).first_dose_given
        ≤ (popAfter supply ms0 (Population.init total pI) n).total ∧
    (popAfter supply ms0 (Population.init total pI) n).total_vaccinations
        = (popAfter supply ms0 (Population.init total pI) n).first_dose_given
          + (popAfter supply ms0 (Population.init total pI) n).second_dose_given ∧
    (popAfter supply ms0 (Population.init total pI) n).total_vaccinations
        ≤ 2 * (popAfter supply ms0 (Population.init total pI) n).total := by
  obtain ⟨hlen, hnn, hsum, hdue, hd0, hs0, hft⟩ :=
    popAfter_inv supply ms0 total pI ht hs n
  set p := popAfter supply ms0 (Population.init total pI) n with hpdef
  have htakele : (p.first_dose_by_day.take (n - JAB_GAP_DAYS)).sum
      ≤ p.first_dose_by_day.sum := by
    conv_rhs => rw [← List.take_append_drop (n - JAB_GAP_DAYS) p.first_dose_by_day]
    rw [List.sum_append]
    have hdrop : 0 ≤ (p.first_dose_by_day.drop (n - JAB_GAP_DAYS)).sum :=
      List.sum_nonneg (fun x hx => hnn x (List.mem_of_mem_drop hx))
    omega
  have hsg_le : p.second_dose_given ≤ p.first_dose_given := by omega
  have htv : p.total_vaccinations = p.first_dose_given + p.second_dose_given := rfl
  exact ⟨hsg_le, hft, htv, by omega⟩

/-- Witness for C3: a ten-person population with constant supply 5, after three
simulated days. -/
theorem claim_C3_witness :
    (popAfter (fun _ => 5) [] (Population.init 10 0) 3).second_dose_given
        ≤ (popAfter (fun _ => 5) [] (Population.init 10 0) 3).first_dose_given ∧
    (popAfter (fun _ => 5) [] (Population.init 10 0) 3).first_dose_given
        ≤ (popAfter (fun _ => 5) [] (Population.init 10 0) 3).total ∧
    (popAfter (fun _ => 5) [] (Population.init 10 0) 3).total_vaccinations
        = (popAfter (fun _ => 5) [] (Population.init 10 0) 3).first_dose_given
          + (popAfter (fun _ => 5) [] (Population.init 10 0) 3).second_dose_given ∧
    (popAfter (fun _ => 5) [] (Population.init 10 0) 3).total_vaccinations
        ≤ 2 * (popAfter (fun _ => 5) [] (Population.init 10 0) 3).total :=
  claim_C3 (fun _ => 5) [] 10 0 3 (by decide) (fun _ => (by decide : (0 : Int) ≤ 5))

/-! ### Structural lemmas for the milestone pass -/

theorem checkPassed_passed (pop : Population) (m : Milestone) :
    (checkPassed pop m).passed = (m.passed || m.condition pop) := by
  unfold checkPassed Milestone.check
  by_cases hm : m.passed = true <;> simp [hm]

theorem checkPassed_condition (pop : Population) (m : Milestone) :
    (checkPassed pop m).condition = m.condition := by
  unfold checkPassed Milestone.check
  split_ifs <;> rfl

theorem checkPassed_dummy (pop : Population) :
    checkPassed pop dummyMilestone = dummyMilestone := rfl

theorem gnpAux_fst (pop : Population) (l : List Milestone) :
    ∀ (idx lastIdx : Nat) (day : Int),
      (gnpAux pop l idx lastIdx day).1 = l.map (checkPassed pop) := by
  induction l with
  | nil => intro idx lastIdx day; rfl
  | cons m rest ih =>
    intro idx lastIdx day
    by_cases hm : m.passed = true
    · simp [gnpAux, hm, checkPassed, ih]
    · by_cases hc : m.condition pop = true
      · simp [gnpAux, hm, hc, checkPassed, Milestone.check, ih]
      · simp [gnpAux, hm, hc, checkPassed, Milestone.check, ih]

theorem gnpAux_mem (pop : Population) (l : List Milestone) :
    ∀ (idx lastIdx : Nat) (day d : Int) (i : Nat),
      (d, i) ∈ (gnpAux pop l idx lastIdx day).2 →
      ∃ k, ∃ hk : k < l.length, i = idx + k ∧
        (l.get ⟨k, hk⟩).passed = false ∧ (l.get ⟨k, hk⟩).condition pop = true := by
  induction l with
  | nil => intro idx lastIdx day d i hmem; exact absurd hmem (List.not_mem_nil _)
  | cons m rest ih =>
    intro idx lastIdx day d i hmem
    by_cases hm : m.passed = true
    · simp only [gnpAux, hm, if_true] at hmem
      obtain ⟨k, hk, hik, hp, hc⟩ := ih (idx + 1) lastIdx day d i hmem
      exact ⟨k + 1, Nat.succ_lt_succ hk, by omega, hp, hc⟩
    · rw [Bool.not_eq_true] at hm
      by_cases hc : m.condition pop = true
      · simp only [gnpAux, Milestone.check, hm, hc, Bool.false_eq_true, if_false,
          if_true, List.mem_cons] at hmem
        rcases hmem with heq | hmem'
        · rw [Prod.mk.injEq] at heq
          obtain ⟨hd, hi⟩ := heq
          exact ⟨0, Nat.succ_pos _, by omega, hm, hc⟩
        · obtain ⟨k, hk, hik, hp, hcc⟩ := ih (idx + 1) lastIdx _ d i hmem'
          exact ⟨k + 1, Nat.succ_lt_succ hk, by omega, hp, hcc⟩
      · rw [Bool.not_eq_true] at hc
        simp only [gnpAux, Milestone.check, hm, hc, Bool.false_eq_true, if_false] at hmem
        obtain ⟨k, hk, hik, hp, hcc⟩ := ih (idx + 1) lastIdx day d i hmem
        exact ⟨k + 1, Nat.succ_lt_succ hk, by omega, hp, hcc⟩

theorem gnpAux_dates (pop : Population) (l : List Milestone) :
    ∀ (idx lastIdx : Nat) (day d : Int) (i : Nat),
      idx + l.length = lastIdx + 1 →
      (d, i) ∈ (gnpAux pop l idx lastIdx day).2 →
      d = (if i = lastIdx then day + 14 else day) := by
  induction l with
  | nil => intro idx lastIdx day d i hlen hmem; exact absurd hmem (List.not_mem_nil _)
  | cons m rest ih =>
    intro idx lastIdx day d i hlen hmem
    have hlen' : idx + 1 + rest.length = lastIdx + 1 := by
      simp only [List.length_cons] at hlen
      omega
    by_cases hm : m.passed = true
    · simp only [gnpAux, hm, if_true] at hmem
      exact ih (idx + 1) lastIdx day d i hlen' hmem
    · rw [Bool.not_eq_true] at hm
      by_cases hc : m.condition pop = true
      · simp only [gnpAux, Milestone.check, hm, hc, Bool.false_eq_true, if_false,
          if_true, List.mem_cons] at hmem
        rcases hmem with heq | hmem'
        · rw [Prod.mk.injEq] at heq
          rw [heq.1, heq.2]
        · by_cases hil : idx = lastIdx
          · have hrl : rest.length = 0 := by omega
            rw [List.length_eq_zero.mp hrl] at hmem'
            exact absurd hmem' (List.not_mem_nil _)
          · rw [if_neg hil] at hmem'
            exact ih (idx + 1) lastIdx day d i hlen' hmem'
      · rw [Bool.not_eq_true] at hc
        simp only [gnpAux, Milestone.check, hm, hc, Bool.false_eq_true, if_false] at hmem
        exact ih (idx + 1) lastIdx day d i hlen' hmem

theorem gnpAux_count (pop : Population) (l : List Milestone) :
    ∀ (idx lastIdx : Nat) (day : Int) (i : Nat),
      ((gnpAux pop l idx lastIdx day).2.map Prod.snd).count i ≤ 1 := by
  induction l with
  | nil => intro idx lastIdx day i; simp [gnpAux]
  | cons m rest ih =>
    intro idx lastIdx day i
    by_cases hm : m.passed = true
    · simpa only [gnpAux, hm, if_true] using ih (idx + 1) lastIdx day i
    · rw [Bool.not_eq_true] at hm
      by_cases hc : m.condition pop = true
      · simp only [gnpAux, Milestone.check, hm, hc, Bool.false_eq_true, if_false,
          if_true, List.map_cons]
        rw [List.count_cons]
        by_cases hii : idx = i
        · have hnot : i ∉ ((gnpAux pop rest (idx + 1) lastIdx
              (if idx = lastIdx then day + 14 else day)).2.map Prod.snd) := by
            intro hmm
            obtain ⟨a, ha, hai⟩ := List.mem_map.mp hmm
            obtain ⟨k, hk, hik, _, _⟩ :=
              gnpAux_mem pop rest (idx + 1) lastIdx _ a.1 a.2 (by
                have : a = (a.1, a.2) := rfl
                rw [← this]
                exact ha)
            omega
          rw [List.count_eq_zero.mpr hnot]
          simp [hii]
        · have : ¬((idx : Nat) == i) = true := by
            simp only [beq_iff_eq]
            exact hii
          rw [if_neg this]
          simpa using ih (idx + 1) lastIdx _ i
      · rw [Bool.not_eq_true] at hc
        simpa only [gnpAux, Milestone.check, hm, hc, Bool.false_eq_true, if_false]
          using ih (idx + 1) lastIdx day i

/-! ### Trace lemmas for the milestone list and the output log -/

theorem simState_milestones_succ (supply : Nat → Int) (ms0 : List Milestone)
    (pop0 : Population) (n : Nat) :
    (simState supply ms0 pop0 (n + 1)).milestones
      = (simState supply ms0 pop0 n).milestones.map
          (checkPassed (popAfter supply ms0 pop0 (n + 1))) := by
  have h : (simState supply ms0 pop0 (n + 1)).milestones
      = (get_newly_passed_milestones (popAfter supply ms0 pop0 (n + 1)) (n : Int)
          (simState supply ms0 pop0 n).milestones).1 := rfl
  rw [h, get_newly_passed_milestones, gnpAux_fst]

theorem simState_log_succ (supply : Nat → Int) (ms0 : List Milestone)
    (pop0 : Population) (n : Nat) :
    (simState supply ms0 pop0 (n + 1)).log
      = (simState supply ms0 pop0 n).log ++ outOn supply ms0 pop0 n := rfl

theorem simState_milestones_length (supply : Nat → Int) (ms0 : List Milestone)
    (pop0 : Population) (n : Nat) :
    (simState supply ms0 pop0 n).milestones.length = ms0.length := by
  induction n with
  | zero => rfl
  | succ n ih => rw [simState_milestones_succ, List.length_map, ih]

theorem milestoneAt_succ (supply : Nat → Int) (ms0 : List Milestone)
    (pop0 : Population) (n i : Nat) :
    milestoneAt supply ms0 pop0 (n + 1) i
      = checkPassed (popAfter supply ms0 pop0 (n + 1))
          (milestoneAt supply ms0 pop0 n i) := by
  unfold milestoneAt
  rw [simState_milestones_succ, List.getD_eq_getElem?_getD, List.getElem?_map,
    List.getD_eq_getElem?_getD]
  cases h : (simState supply ms0 pop0 n).milestones[i]? with
  | none => simp [checkPassed_dummy]
  | some m => simp

theorem milestoneAt_condition (supply : Nat → Int) (ms0 : List Milestone)
    (pop0 : Population) (n i : Nat) :
    (milestoneAt supply ms0 pop0 n i).condition
      = (ms0.getD i dummyMilestone).condition := by
  induction n with
  | zero => rfl
  | succ n ih => rw [milestoneAt_succ, checkPassed_condition, ih]

theorem milestoneAt_mono (supply : Nat → Int) (ms0 : List Milestone)
    (pop0 : Population) (n i : Nat)
    (h : (milestoneAt supply ms0 pop0 n i).passed = true) :
    (milestoneAt supply ms0 pop0 (n + 1) i).passed = true := by
  rw [milestoneAt_succ, checkPassed_passed, h, Bool.true_or]

theorem milestoneAt_passed_iff (supply : Nat → Int) (ms0 : List Milestone)
    (pop0 : Population) (h0 : ∀ m ∈ ms0, m.passed = false) (n i : Nat) :
    (milestoneAt supply ms0 pop0 n i).passed = true
      ↔ ∃ j, j < n ∧ (ms0.getD i dummyMilestone).condition
          (popAfter supply ms0 pop0 (j + 1)) = true := by
  induction n with
  | zero =>
    have hz : (milestoneAt supply ms0 pop0 0 i).passed = false := by
      show (ms0.getD i dummyMilestone).passed = false
      rw [List.getD_eq_getElem?_getD]
      cases h : ms0[i]? with
      | none => rfl
      | some m =>
        obtain ⟨hlt, helem⟩ := List.getElem?_eq_some.mp h
        exact h0 m (helem ▸ List.getElem_mem hlt)
    rw [hz]
    simp
  | succ n ih =>
    rw [milestoneAt_succ, checkPassed_passed, Bool.or_eq_true, ih,
      milestoneAt_condition]
    constructor
    · rintro (⟨j, hj, hcj⟩ | hcn)
      · exact ⟨j, by omega, hcj⟩
      · exact ⟨n, by omega, hcn⟩
    · rintro ⟨j, hj, hcj⟩
      by_cases hjn : j = n
      · right
        rw [← hjn]
        exact hcj
      · left
        exact ⟨j, by omega, hcj⟩

theorem log_mem (supply : Nat → Int) (ms0 : List Milestone) (pop0 : Population)
    (n : Nat) (d : Int) (i : Nat)
    (h : (d, i) ∈ (simState supply ms0 pop0 n).log) :
    ∃ j, j < n ∧ (d, i) ∈ outOn supply ms0 pop0 j := by
  induction n with
  | zero => exact absurd h (List.not_mem_nil _)
  | succ n ih =>
    rw [simState_log_succ] at h
    rcases List.mem_append.mp h with h' | h'
    · obtain ⟨j, hj, hjm⟩ := ih h'
      exact ⟨j, by omega, hjm⟩
    · exact ⟨n, by omega, h'⟩

theorem outOn_eq (supply : Nat → Int) (ms0 : List Milestone) (pop0 : Population)
    (j : Nat) :
    outOn supply ms0 pop0 j
      = (gnpAux (popAfter supply ms0 pop0 (j + 1))
          (simState supply ms0 pop0 j).milestones 0
          ((simState supply ms0 pop0 j).milestones.length - 1) (j : Int)).2 := rfl

theorem milestoneAt_eq_get (supply : Nat → Int) (ms0 : List Milestone)
    (pop0 : Population) (n i : Nat)
    (hk : i < (simState supply ms0 pop0 n).milestones.length) :
    milestoneAt supply ms0 pop0 n i
      = (simState supply ms0 pop0 n).milestones.get ⟨i, hk⟩ := by
  unfold milestoneAt
  rw [List.getD_eq_getElem _ _ hk, List.get_eq_getElem]

/-! ### Claims C4 and C5 -/

/-- Claim C4: every entry of the run's output log records a milestone first
detected on some day `j` (its predicate holds on day `j`'s post-allocation
state and on no earlier day's), and its recorded date is `j + 14` when it is
the final milestone of the list and `j` itself for every other milestone; in
the run's fixed list the final milestone is the herd-immunity proxy, whose
predicate is coverage of the partially-immune estimate reaching 0.75. -/
theorem claim_C4 :
    (∀ (supply : Nat → Int) (ms0 : List Milestone) (pop0 : Population)
      (n : Nat) (d : Int) (i : Nat),
      (∀ m ∈ ms0, m.passed = false) →
      (d, i) ∈ (simState supply ms0 pop0 n).log →
      ∃ j, j < n ∧
        (ms0.getD i dummyMilestone).condition (popAfter supply ms0 pop0 (j + 1)) = true ∧
        (∀ j', j' < j →
          (ms0.getD i dummyMilestone).condition
            (popAfter supply ms0 pop0 (j' + 1)) = false) ∧
        d = (if i = ms0.length - 1 then (j : Int) + 14 else (j : Int))) ∧
    (runMilestones.getD (runMilestones.length - 1) dummyMilestone).description
        = "Bare R <1?" ∧
    (runMilestones.getD (runMilestones.length - 1) dummyMilestone).condition
        = fun pop => decide (pop.as_prop pop.partly_immune ≥ 75/100) := by
  refine ⟨?_, rfl, rfl⟩
  intro supply ms0 pop0 n d i h0 hmem
  obtain ⟨j, hj, hjm⟩ := log_mem supply ms0 pop0 n d i hmem
  rw [outOn_eq] at hjm
  obtain ⟨k, hk, hik, hp, hc⟩ := gnpAux_mem _ _ 0 _ _ d i hjm
  have hki : k = i := by omega
  subst hki
  have hbridge := milestoneAt_eq_get supply ms0 pop0 j k hk
  have hpassedAt : (milestoneAt supply ms0 pop0 j k).passed = false := by
    rw [hbridge]
    exact hp
  have hcondAt : (ms0.getD k dummyMilestone).condition
      (popAfter supply ms0 pop0 (j + 1)) = true := by
    rw [← milestoneAt_condition supply ms0 pop0 j k, hbridge]
    exact hc
  have hbefore : ∀ j', j' < j →
      (ms0.getD k dummyMilestone).condition (popAfter supply ms0 pop0 (j' + 1)) = false := by
    intro j' hj'
    by_contra hcc
    rw [Bool.not_eq_false] at hcc
    have hpj : (milestoneAt supply ms0 pop0 j k).passed = true :=
      (milestoneAt_passed_iff supply ms0 pop0 h0 j k).mpr ⟨j', hj', hcc⟩
    rw [hpassedAt] at hpj
    exact absurd hpj (by simp)
  have hlen0 : (0 : Nat) + (simState supply ms0 pop0 j).milestones.length
      = ((simState supply ms0 pop0 j).milestones.length - 1) + 1 := by omega
  have hdate := gnpAux_dates _ _ 0 _ (j : Int) d k hlen0 hjm
  rw [simState_milestones_length] at hdate
  exact ⟨j, hj, hcondAt, hbefore, hdate⟩

/-- Witness for C4: a three-person population with constant supply 2 and the
single-milestone list; the milestone fires on day 0 and, being the last of the
list, is logged with date `0 + 14`. -/
theorem claim_C4_witness :
    ∃ j, j < 1 ∧
      (witnessMilestones.getD 0 dummyMilestone).condition
        (popAfter (fun _ => 2) witnessMilestones (Population.init 3 0) (j + 1)) = true ∧
      (∀ j', j' < j →
        (witnessMilestones.getD 0 dummyMilestone).condition
          (popAfter (fun _ => 2) witnessMilestones (Population.init 3 0) (j' + 1)) = false) ∧
      (14 : Int) = (if (0 : Nat) = witnessMilestones.length - 1
          then (j : Int) + 14 else (j : Int)) :=
  claim_C4.1 (fun _ => 2) witnessMilestones (Population.init 3 0) 1 14 0
    (by decide) (by decide)

theorem log_count_aux (supply : Nat → Int) (ms0 : List Milestone)
    (pop0 : Population) : ∀ n i,
    (((simState supply ms0 pop0 n).log).map Prod.snd).count i ≤ 1 ∧
    (1 ≤ (((simState supply ms0 pop0 n).log).map Prod.snd).count i →
      (milestoneAt supply ms0 pop0 n i).passed = true) := by
  intro n
  induction n with
  | zero =>
    intro i
    have hz : (simState supply ms0 pop0 0).log = [] := rfl
    rw [hz]
    simp
  | succ n ih =>
    intro i
    rw [simState_log_succ, List.map_append, List.count_append]
    by_cases hpass : (milestoneAt supply ms0 pop0 n i).passed = true
    · have hnot : i ∉ (outOn supply ms0 pop0 n).map Prod.snd := by
        intro hmm
        obtain ⟨a, ha, hai⟩ := List.mem_map.mp hmm
        rw [outOn_eq] at ha
        have ha2 : (a.1, a.2) ∈ (gnpAux (popAfter supply ms0 pop0 (n + 1))
            (simState supply ms0 pop0 n).milestones 0
            ((simState supply ms0 pop0 n).milestones.length - 1) (n : Int)).2 := by
          rw [Prod.mk.eta]
          exact ha
        obtain ⟨k, hk, hik, hp, _⟩ := gnpAux_mem _ _ 0 _ _ a.1 a.2 ha2
        have hki : k = i := by omega
        rw [← hki, milestoneAt_eq_get supply ms0 pop0 n k hk, hp] at hpass
        exact absurd hpass (by simp)
      rw [List.count_eq_zero.mpr hnot]
      refine ⟨by have := (ih i).1; omega, ?_⟩
      intro _
      exact milestoneAt_mono supply ms0 pop0 n i hpass
    · rw [Bool.not_eq_true] at hpass
      have hcn : (((simState supply ms0 pop0 n).log).map Prod.snd).count i = 0 := by
        by_contra hby
        have h1 : 1 ≤ (((simState supply ms0 pop0 n).log).map Prod.snd).count i := by
          omega
        have hpt := (ih i).2 h1
        rw [hpass] at hpt
        exact absurd hpt (by simp)
      rw [hcn]
      have hcout : ((outOn supply ms0 pop0 n).map Prod.snd).count i ≤ 1 := by
        rw [outOn_eq]
        exact gnpAux_count _ _ 0 _ _ i
      refine ⟨by omega, ?_⟩
      intro h1
      have hpos : 0 < ((outOn supply ms0 pop0 n).map Prod.snd).count i := by omega
      obtain ⟨a, ha, hai⟩ := List.mem_map.mp (List.count_pos_iff.mp hpos)
      rw [outOn_eq] at ha
      have ha2 : (a.1, a.2) ∈ (gnpAux (popAfter supply ms0 pop0 (n + 1))
          (simState supply ms0 pop0 n).milestones 0
          ((simState supply ms0 pop0 n).milestones.length - 1) (n : Int)).2 := by
        rw [Prod.mk.eta]
        exact ha
      obtain ⟨k, hk, hik, _, hc⟩ := gnpAux_mem _ _ 0 _ _ a.1 a.2 ha2
      have hki : k = i := by omega
      rw [milestoneAt_succ, checkPassed_passed, Bool.or_eq_true]
      right
      rw [← hki, milestoneAt_eq_get supply ms0 pop0 n k hk]
      exact hc

/-- Claim C5: once a milestone's `passed` flag becomes true during a run it
stays true on every later day, and each milestone position occurs at most once
in the run's output log. -/
theorem claim_C5 (supply : Nat → Int) (ms0 : List Milestone) (pop0 : Population) :
    (∀ n k i, (milestoneAt supply ms0 pop0 n i).passed = true →
        (milestoneAt supply ms0 pop0 (n + k) i).passed = true) ∧
    (∀ n i, (((simState supply ms0 pop0 n).log).map Prod.snd).count i ≤ 1) := by
  constructor
  · intro n k i h
    induction k with
    | zero => exact h
    | succ k ihk => exact milestoneAt_mono supply ms0 pop0 (n + k) i ihk
  · intro n i
    exact (log_count_aux supply ms0 pop0 n i).1

/-- Witness for C5: with a two-person population, constant supply 2 and the
single-milestone list, the milestone is passed after day 0 and remains passed
one day later. -/
theorem claim_C5_witness :
    (milestoneAt (fun _ => 2) witnessMilestones (Population.init 2 0) (1 + 1) 0).passed
      = true :=
  (claim_C5 (fun _ => 2) witnessMilestones (Population.init 2 0)).1 1 1 0 (by decide)

/-! ### Claim C9 -/

theorem runLoop_reaches (supply : Nat → Int) (ms0 : List Milestone)
    (pop0 : Population) (k : Nat)
    (hk : (popAfter supply ms0 pop0 (k + 1)).all_vaxxed = true)
    (hmin : ∀ j, j < k → (popAfter supply ms0 pop0 (j + 1)).all_vaxxed = false) :
    ∀ fuel i, i ≤ k → k - i < fuel →
      runLoop supply fuel i (simState supply ms0 pop0 i)
        = simState supply ms0 pop0 (k + 1) := by
  intro fuel
  induction fuel with
  | zero =>
    intro i hik hf
    exact absurd hf (by omega)
  | succ fuel ih =>
    intro i hik hf
    have hs2 : stepDay supply i (simState supply ms0 pop0 i)
        = simState supply ms0 pop0 (i + 1) := rfl
    by_cases hone : i = k
    · subst hone
      have hk' : (simState supply ms0 pop0 (i + 1)).pop.all_vaxxed = true := hk
      simp only [runLoop, hs2, hk', if_true]
    · have hfalse' : (simState supply ms0 pop0 (i + 1)).pop.all_vaxxed = false :=
        hmin i (by omega)
      simp only [runLoop, hs2, hfalse', Bool.false_eq_true, if_false]
      exact ih (i + 1) (by omega) (by omega)

/-- Claim C9: the driver loop stops after the first day `k` on which
`all_vaxxed` (`second_dose_given >= total`) holds — its result is exactly the
state after days `0 … k` have been processed, so every earlier day continued to
the next — and day `k`'s milestone evaluation is still performed: the final log
extends day `k - 1`'s log with day `k`'s newly passed milestones. -/
theorem claim_C9 (supply : Nat → Int) (ms0 : List Milestone) (pop0 : Population)
    (fuel k : Nat) (hfuel : k < fuel)
    (hk : (popAfter supply ms0 pop0 (k + 1)).all_vaxxed = true)
    (hmin : ∀ j, j < k → (popAfter supply ms0 pop0 (j + 1)).all_vaxxed = false) :
    runLoop supply fuel 0 ⟨pop0, ms0, []⟩ = simState supply ms0 pop0 (k + 1) ∧
    (simState supply ms0 pop0 (k + 1)).log
      = (simState supply ms0 pop0 k).log ++ outOn supply ms0 pop0 k := by
  constructor
  · have h0 : simState supply ms0 pop0 0 = ⟨pop0, ms0, []⟩ := rfl
    rw [← h0]
    exact runLoop_reaches supply ms0 pop0 k hk hmin fuel 0 (by omega) (by omega)
  · exact simState_log_succ supply ms0 pop0 k

/-- Witness for C9: a zero-person population is fully vaccinated after day 0,
so with fuel 1 the loop stops there. -/
theorem claim_C9_witness :
    runLoop (fun _ => 3) 1 0 ⟨Population.init 0 0, [], []⟩
        = simState (fun _ => 3) [] (Population.init 0 0) (0 + 1) ∧
    (simState (fun _ => 3) [] (Population.init 0 0) (0 + 1)).log
        = (simState (fun _ => 3) [] (Population.init 0 0) 0).log
          ++ outOn (fun _ => 3) [] (Population.init 0 0) 0 :=
  claim_C9 (fun _ => 3) [] (Population.init 0 0) 1 0 (by decide) (by decide)
    (fun j hj => absurd hj (by omega))

/-! ### Association list lemmas for the supply estimator -/

theorem lookup_cons_eq (x a b : Int) (tl : List (Int × Int)) :
    List.lookup x ((a, b) :: tl) = if x = a then some b else List.lookup x tl := by
  by_cases h : x = a
  · simp [List.lookup_cons, h]
  · have hb : (x == a) = false := beq_eq_false_iff_ne.mpr h
    simp [List.lookup_cons, h, hb]

theorem lookup_isSome_iff (m : List (Int × Int)) (k : Int) :
    (m.lookup k).isSome = true ↔ k ∈ assocKeys m := by
  induction m with
  | nil => simp [assocKeys]
  | cons p tl ih =>
    rcases p with ⟨a, b⟩
    by_cases hka : k = a
    · simp [lookup_cons_eq, hka, assocKeys]
    · simp [lookup_cons_eq, hka, assocKeys, ih]

theorem lookup_map_replace (m : List (Int × Int)) (k v : Int) :
    (m.map (fun p => if p.1 = k then (k, v) else p)).lookup k
      = (m.lookup k).map (fun _ => v) := by
  induction m with
  | nil => rfl
  | cons p tl ih =>
    rcases p with ⟨a, b⟩
    by_cases hak : a = k
    · subst hak
      simp [lookup_cons_eq]
    · have hka : ¬(k = a) := fun h => hak h.symm
      simp [lookup_cons_eq, hak, hka, ih]

theorem lookup_map_replace_ne (m : List (Int × Int)) (k v x : Int) (h : x ≠ k) :
    (m.map (fun p => if p.1 = k then (k, v) else p)).lookup x = m.lookup x := by
  induction m with
  | nil => rfl
  | cons p tl ih =>
    rcases p with ⟨a, b⟩
    by_cases hak : a = k
    · subst hak
      simp [lookup_cons_eq, h, ih]
    · by_cases hxa : x = a
      · simp [lookup_cons_eq, hak, hxa]
      · simp [lookup_cons_eq, hak, hxa, ih]

theorem lookup_setKey_self (m : List (Int × Int)) (k v : Int) :
    (setKey m k v).lookup k = some v := by
  unfold setKey
  split_ifs with h
  · rw [lookup_map_replace]
    obtain ⟨w, hw⟩ := Option.isSome_iff_exists.mp h
    rw [hw]
    rfl
  · rw [List.lookup_append, Option.not_isSome_iff_eq_none.mp h]
    simp [lookup_cons_eq]

theorem lookup_setKey_ne (m : List (Int × Int)) (k v x : Int) (h : x ≠ k) :
    (setKey m k v).lookup x = m.lookup x := by
  unfold setKey
  split_ifs with hs
  · exact lookup_map_replace_ne m k v x h
  · rw [List.lookup_append]
    have : List.lookup x [(k, v)] = none := by simp [lookup_cons_eq, h]
    rw [this, Option.or_none]

theorem assocKeys_setKey (m : List (Int × Int)) (k v : Int) :
    assocKeys (setKey m k v)
      = if (m.lookup k).isSome then assocKeys m else assocKeys m ++ [k] := by
  unfold setKey
  split_ifs with h
  · clear h
    induction m with
    | nil => rfl
    | cons p tl ih =>
      rcases p with ⟨a, b⟩
      by_cases hak : a = k
      · simp [assocKeys, hak] at ih ⊢
        exact ih
      · simp [assocKeys, hak] at ih ⊢
        exact ih
  · simp [assocKeys]

theorem nodup_keys_setKey (m : List (Int × Int)) (k v : Int)
    (h : (assocKeys m).Nodup) : (assocKeys (setKey m k v)).Nodup := by
  rw [assocKeys_setKey]
  split_ifs with hs
  · exact h
  · have hk : k ∉ assocKeys m := fun hmem => hs ((lookup_isSome_iff m k).mpr hmem)
    simp [List.nodup_append, h, hk]

theorem recordedDaysToTotalsAux_nodup :
    ∀ (data : List VaccinationRecord) (acc rm : List (Int × Int)),
      (assocKeys acc).Nodup → recordedDaysToTotalsAux acc data = some rm →
      (assocKeys rm).Nodup := by
  intro data
  induction data with
  | nil =>
    intro acc rm h heq
    simp only [recordedDaysToTotalsAux, Option.some.injEq] at heq
    rw [← heq]
    exact h
  | cons r rs ih =>
    intro acc rm h heq
    unfold recordedDaysToTotalsAux at heq
    cases hrt : recordTotal r with
    | none =>
      rw [hrt] at heq
      exact absurd heq (by simp)
    | some t =>
      rw [hrt] at heq
      exact ih _ rm (nodup_keys_setKey acc r.date t h) heq

theorem recordedDaysToTotals_nodup (data : List VaccinationRecord)
    (rm : List (Int × Int)) (h : recordedDaysToTotals data = some rm) :
    (assocKeys rm).Nodup :=
  recordedDaysToTotalsAux_nodup data [] rm (by simp [assocKeys]) h

theorem daysInOrder_perm (rm : List (Int × Int)) :
    (daysInOrder rm).Perm (assocKeys rm) :=
  List.perm_insertionSort _ _

theorem daysInOrder_sorted (rm : List (Int × Int)) :
    (daysInOrder rm).Sorted (· ≤ ·) :=
  List.sorted_insertionSort _ _

theorem mem_daysInOrder (rm : List (Int × Int)) (d : Int) :
    d ∈ daysInOrder rm ↔ d ∈ assocKeys rm :=
  (daysInOrder_perm rm).mem_iff

theorem daysInOrder_nodup (data : List VaccinationRecord) (rm : List (Int × Int))
    (h : recordedDaysToTotals data = some rm) : (daysInOrder rm).Nodup :=
  ((daysInOrder_perm rm).nodup_iff).mpr (recordedDaysToTotals_nodup data rm h)

theorem rest_lt (data : List VaccinationRecord) (rm : List (Int × Int))
    (firstRecorded : Int) (rest : List Int)
    (h1 : recordedDaysToTotals data = some rm)
    (h2 : daysInOrder rm = firstRecorded :: rest) :
    ∀ d ∈ rest, firstRecorded < d := by
  have hs := daysInOrder_sorted rm
  have hnd := daysInOrder_nodup data rm h1
  rw [h2] at hs hnd
  intro d hd
  have hle : firstRecorded ≤ d := List.rel_of_sorted_cons hs d hd
  have hne : firstRecorded ≠ d := by
    intro heq
    exact absurd hd (heq ▸ (List.nodup_cons.mp hnd).1)
  omega

theorem rest_nodup (data : List VaccinationRecord) (rm : List (Int × Int))
    (firstRecorded : Int) (rest : List Int)
    (h1 : recordedDaysToTotals data = some rm)
    (h2 : daysInOrder rm = firstRecorded :: rest) : rest.Nodup := by
  have hnd := daysInOrder_nodup data rm h1
  rw [h2] at hnd
  exact (List.nodup_cons.mp hnd).2

theorem mem_rest_iff (data : List VaccinationRecord) (rm : List (Int × Int))
    (firstRecorded : Int) (rest : List Int)
    (h1 : recordedDaysToTotals data = some rm)
    (h2 : daysInOrder rm = firstRecorded :: rest) (d : Int) :
    d ∈ rest ↔ d ∈ assocKeys rm ∧ d ≠ firstRecorded := by
  constructor
  · intro hd
    refine ⟨?_, ?_⟩
    · rw [← mem_daysInOrder, h2]
      exact List.mem_cons_of_mem _ hd
    · have := rest_lt data rm firstRecorded rest h1 h2 d hd
      omega
  · rintro ⟨hk, hne⟩
    have : d ∈ daysInOrder rm := (mem_daysInOrder rm d).mpr hk
    rw [h2] at this
    rcases List.mem_cons.mp this with h | h
    · exact absurd h hne
    · exact h

theorem mem_earlyDays (firstRecorded d : Int) :
    d ∈ earlyDays firstRecorded
      ↔ FIRST_VACCINATION_DAY ≤ d ∧ d ≤ firstRecorded := by
  rw [earlyDays, List.mem_map]
  constructor
  · rintro ⟨n, hn, rfl⟩
    rw [List.mem_range] at hn
    simp only [FIRST_VACCINATION_DAY] at hn ⊢
    omega
  · rintro ⟨h0, h1⟩
    refine ⟨d.toNat, ?_, ?_⟩
    · rw [List.mem_range]
      simp only [FIRST_VACCINATION_DAY] at h0 h1 ⊢
      omega
    · simp only [FIRST_VACCINATION_DAY] at h0 ⊢
      omega

theorem earlyDays_nodup (firstRecorded : Int) :
    (earlyDays firstRecorded).Nodup := by
  rw [earlyDays]
  refine List.Nodup.map ?_ (List.nodup_range _)
  intro a b hab
  simp only [FIRST_VACCINATION_DAY] at hab
  omega

theorem foldl_setKey_lookup (f : Int → Int) :
    ∀ (ds : List Int) (init : List (Int × Int)) (x : Int), ds.Nodup →
      ((ds.foldl (fun m d => setKey m d (f d)) init).lookup x)
        = if x ∈ ds then some (f x) else init.lookup x := by
  intro ds
  induction ds with
  | nil =>
    intro init x h
    simp
  | cons d tl ih =>
    intro init x h
    rw [List.foldl_cons]
    have hnd : tl.Nodup := (List.nodup_cons.mp h).2
    rw [ih (setKey init d (f d)) x hnd]
    by_cases hx : x ∈ tl
    · rw [if_pos hx, if_pos (by simp [hx])]
    · rw [if_neg hx]
      by_cases hxd : x = d
      · subst hxd
        rw [if_pos (by simp), lookup_setKey_self]
      · rw [if_neg (by simp [hxd, hx]), lookup_setKey_ne init d (f d) x hxd]

theorem buildTable_lookup (rm : List (Int × Int)) (firstRecorded : Int)
    (rest : List Int) (hrest : rest.Nodup) (d : Int) :
    (buildTable rm firstRecorded rest).lookup d
      = if d ∈ rest then some ((rm.lookup d).getD 0)
        else if d ∈ earlyDays firstRecorded
          then some (meanFirstPeriod rm firstRecorded)
          else none := by
  unfold buildTable
  rw [foldl_setKey_lookup (fun d => (rm.lookup d).getD 0) rest _ d hrest]
  by_cases h1 : d ∈ rest
  · rw [if_pos h1, if_pos h1]
  · rw [if_neg h1, if_neg h1,
      foldl_setKey_lookup (fun _ => meanFirstPeriod rm firstRecorded)
        (earlyDays firstRecorded) [] d (earlyDays_nodup firstRecorded)]
    by_cases h2 : d ∈ earlyDays firstRecorded
    · rw [if_pos h2, if_pos h2]
    · rw [if_neg h2, if_neg h2]
      rfl

theorem get_vaccine_data_eq (data : List VaccinationRecord)
    (rm : List (Int × Int)) (firstRecorded : Int) (rest : List Int)
    (h1 : recordedDaysToTotals data = some rm)
    (h2 : daysInOrder rm = firstRecorded :: rest)
    (h3 : firstRecorded ≠ FIRST_VACCINATION_DAY) :
    get_vaccine_data data
      = Except.ok (buildTable rm firstRecorded rest, last7DayMean rm) := by
  unfold get_vaccine_data
  rw [h1]
  simp only [h2]
  rw [if_neg (by simp only [FIRST_VACCINATION_DAY] at h3 ⊢; omega)]

theorem gvd_ok_parts (data : List VaccinationRecord) (rm : List (Int × Int))
    (firstRecorded : Int) (rest : List Int) (t : List (Int × Int)) (mean : Int)
    (h1 : recordedDaysToTotals data = some rm)
    (h2 : daysInOrder rm = firstRecorded :: rest)
    (hok : get_vaccine_data data = Except.ok (t, mean)) :
    t = buildTable rm firstRecorded rest ∧ mean = last7DayMean rm ∧
    firstRecorded ≠ FIRST_VACCINATION_DAY := by
  have herr : firstRecorded = FIRST_VACCINATION_DAY →
      get_vaccine_data data = Except.error DataError.zeroDivisionError := by
    intro hz
    unfold get_vaccine_data
    rw [h1]
    simp only [h2]
    rw [if_pos (by rw [hz, sub_self])]
  have h3 : firstRecorded ≠ FIRST_VACCINATION_DAY := by
    intro hz
    rw [herr hz] at hok
    exact absurd hok (by simp)
  have heq := get_vaccine_data_eq data rm firstRecorded rest h1 h2 h3
  rw [heq] at hok
  injection hok with hpair
  obtain ⟨hbt, hlm⟩ := Prod.ext_iff.mp hpair
  exact ⟨hbt.symm, hlm.symm, h3⟩

/-! ### Claims C6, C7, C8 and C10 -/

/-- Claim C6 (amended): for every recorded date other than the first, the supply
function returns the recorded value when that value is nonzero; when the
recorded value is 0, the `or`-fallback in `get_vaccines` returns the last-7-day
mean instead. -/
theorem claim_C6 (data : List VaccinationRecord) (rm : List (Int × Int))
    (firstRecorded : Int) (rest : List Int) (t : List (Int × Int)) (mean : Int)
    (d v : Int)
    (h1 : recordedDaysToTotals data = some rm)
    (h2 : daysInOrder rm = firstRecorded :: rest)
    (hok : get_vaccine_data data = Except.ok (t, mean))
    (hv : rm.lookup d = some v) (hd : d ≠ firstRecorded) :
    get_vaccines t mean d = (if v = 0 then mean else v) := by
  obtain ⟨hbt, hlm, h3⟩ := gvd_ok_parts data rm firstRecorded rest t mean h1 h2 hok
  have hdk : d ∈ assocKeys rm := (lookup_isSome_iff rm d).mp (by rw [hv]; rfl)
  have hdrest : d ∈ rest :=
    (mem_rest_iff data rm firstRecorded rest h1 h2 d).mpr ⟨hdk, hd⟩
  have hrest_nd := rest_nodup data rm firstRecorded rest h1 h2
  rw [hbt, hlm]
  unfold get_vaccines
  rw [buildTable_lookup rm firstRecorded rest hrest_nd d, if_pos hdrest, hv]
  by_cases hv0 : v = 0
  · simp [hv0]
  · simp [hv0]

/-- Counterexample to C6 as stated: in `c6Data` the date 8 is a non-first
recorded date whose recorded value is 0, yet the supply function returns the
last-7-day mean 8, not the recorded 0. -/
theorem claim_C6_counterexample :
    recordedValue c6Data 8 = some 0 ∧ vaccinesFor c6Data 8 = some 8 ∧
    ¬ vaccinesFor c6Data 8 = some 0 :=
  ⟨rfl, rfl, by decide⟩

/-- Witness for C6: in `c6Data`'s table, the recorded date 2 has nonzero
recorded value 10, and the supply function returns it. -/
theorem claim_C6_witness :
    get_vaccines
        [(0, 138), (1, 138), (2, 10), (3, 10), (4, 10), (5, 10), (6, 10), (7, 10), (8, 0)]
        8 2
      = (if (10 : Int) = 0 then 8 else 10) :=
  claim_C6 c6Data [(1, 138), (2, 10), (3, 10), (4, 10), (5, 10), (6, 10), (7, 10), (8, 0)]
    1 [2, 3, 4, 5, 6, 7, 8]
    [(0, 138), (1, 138), (2, 10), (3, 10), (4, 10), (5, 10), (6, 10), (7, 10), (8, 0)]
    8 2 10 rfl rfl rfl rfl (by decide)

/-- Claim C7 (amended): every date from the simulation start date up to and
including the first recorded date maps to the truncated flat early-period mean —
returned as-is when nonzero, but falling through to the last-7-day mean when
that flat mean is 0 — and every date with no data at all yields the last-7-day
mean. -/
theorem claim_C7 (data : List VaccinationRecord) (rm : List (Int × Int))
    (firstRecorded : Int) (rest : List Int) (t : List (Int × Int)) (mean : Int)
    (h1 : recordedDaysToTotals data = some rm)
    (h2 : daysInOrder rm = firstRecorded :: rest)
    (hok : get_vaccine_data data = Except.ok (t, mean)) :
    (∀ d, FIRST_VACCINATION_DAY ≤ d → d ≤ firstRecorded →
      get_vaccines t mean d
        = (if meanFirstPeriod rm firstRecorded = 0 then mean
           else meanFirstPeriod rm firstRecorded)) ∧
    (∀ d, d ∉ assocKeys rm → ¬(FIRST_VACCINATION_DAY ≤ d ∧ d ≤ firstRecorded) →
      get_vaccines t mean d = mean) := by
  obtain ⟨hbt, hlm, h3⟩ := gvd_ok_parts data rm firstRecorded rest t mean h1 h2 hok
  have hrest_nd := rest_nodup data rm firstRecorded rest h1 h2
  constructor
  · intro d hd0 hd1
    have hearly : d ∈ earlyDays firstRecorded := (mem_earlyDays _ _).mpr ⟨hd0, hd1⟩
    have hnotrest : d ∉ rest := by
      intro hr
      have := rest_lt data rm firstRecorded rest h1 h2 d hr
      omega
    rw [hbt, hlm]
    unfold get_vaccines
    rw [buildTable_lookup rm firstRecorded rest hrest_nd d, if_neg hnotrest,
      if_pos hearly]
    by_cases hmz : meanFirstPeriod rm firstRecorded = 0
    · simp [hmz]
    · simp [hmz]
  · intro d hdk hdrange
    have hnotearly : d ∉ earlyDays firstRecorded := by
      intro he
      exact hdrange ((mem_earlyDays _ _).mp he)
    have hnotrest : d ∉ rest := by
      intro hr
      exact hdk ((mem_rest_iff data rm firstRecorded rest h1 h2 d).mp hr).1
    rw [hbt, hlm]
    unfold get_vaccines
    rw [buildTable_lookup rm firstRecorded rest hrest_nd d, if_neg hnotrest,
      if_neg hnotearly]

/-- Counterexample to C7 as stated: in `c7Data` the early-period flat mean is
`int(3 / 5) = 0`, and the supply function returns the last-7-day mean 7 for the
start date, not the flat mean 0. -/
theorem claim_C7_counterexample :
    recordedDaysToTotals c7Data = some [(5, 3), (6, 10), (7, 10)] ∧
    daysInOrder [(5, 3), (6, 10), (7, 10)] = [5, 6, 7] ∧
    meanFirstPeriod [(5, 3), (6, 10), (7, 10)] 5 = 0 ∧
    vaccinesFor c7Data FIRST_VACCINATION_DAY = some 7 ∧
    ¬ vaccinesFor c7Data FIRST_VACCINATION_DAY = some 0 :=
  ⟨rfl, by decide, by decide, rfl, by decide⟩

/-- Witness for C7: in `c6Data`'s table the flat early mean is `int(138 / 1) =
138`, and the start date (day 0) maps to it. -/
theorem claim_C7_witness :
    get_vaccines
        [(0, 138), (1, 138), (2, 10), (3, 10), (4, 10), (5, 10), (6, 10), (7, 10), (8, 0)]
        8 0
      = (if meanFirstPeriod
            [(1, 138), (2, 10), (3, 10), (4, 10), (5, 10), (6, 10), (7, 10), (8, 0)] 1 = 0
         then 8
         else meanFirstPeriod
            [(1, 138), (2, 10), (3, 10), (4, 10), (5, 10), (6, 10), (7, 10), (8, 0)] 1) :=
  (claim_C7 c6Data [(1, 138), (2, 10), (3, 10), (4, 10), (5, 10), (6, 10), (7, 10), (8, 0)]
    1 [2, 3, 4, 5, 6, 7, 8]
    [(0, 138), (1, 138), (2, 10), (3, 10), (4, 10), (5, 10), (6, 10), (7, 10), (8, 0)]
    8 rfl rfl rfl).1 0 (by decide) (by decide)

/-- Claim C8: on an empty record set the construction of the dose supply table
fails with an explicit error (the `IndexError` raised by `days_in_order[0]`)
instead of producing a table. -/
theorem claim_C8 : get_vaccine_data [] = Except.error DataError.indexError := rfl

/-- Claim C10 (amended): construction raises the division-by-zero error exactly
when the first recorded date equals the fixed simulation start date; for any
other first recorded date — strictly later or even strictly earlier — it
succeeds. -/
theorem claim_C10 (data : List VaccinationRecord) (rm : List (Int × Int))
    (firstRecorded : Int) (rest : List Int)
    (h1 : recordedDaysToTotals data = some rm)
    (h2 : daysInOrder rm = firstRecorded :: rest) :
    (get_vaccine_data data = Except.error DataError.zeroDivisionError
        ↔ firstRecorded = FIRST_VACCINATION_DAY) ∧
    (firstRecorded ≠ FIRST_VACCINATION_DAY →
      get_vaccine_data data
        = Except.ok (buildTable rm firstRecorded rest, last7DayMean rm)) := by
  constructor
  · constructor
    · intro herr
      by_contra hne
      rw [get_vaccine_data_eq data rm firstRecorded rest h1 h2 hne] at herr
      exact absurd herr (by simp)
    · intro hz
      unfold get_vaccine_data
      rw [h1]
      simp only [h2]
      rw [if_pos (by rw [hz, sub_self])]
  · exact get_vaccine_data_eq data rm firstRecorded rest h1 h2

/-- Counterexample to C10 as stated: in `c10Data` the single recorded date is
strictly earlier than the start date, yet construction succeeds (no
division-by-zero is raised), so being strictly later is not necessary for
well-definedness. -/
theorem claim_C10_counterexample :
    recordedDaysToTotals c10Data = some [(-1, 10)] ∧
    daysInOrder [(-1, 10)] = [-1] ∧
    (-1 : Int) < FIRST_VACCINATION_DAY ∧
    get_vaccine_data c10Data = Except.ok ([], 10) :=
  ⟨rfl, by decide, by decide, rfl⟩

/-- Witness for C10: `c6Data`'s first recorded date (1) differs from the start
date, and construction succeeds. -/
theorem claim_C10_witness :
    get_vaccine_data c6Data
      = Except.ok
          (buildTable [(1, 138), (2, 10), (3, 10), (4, 10), (5, 10), (6, 10), (7, 10), (8, 0)]
            1 [2, 3, 4, 5, 6, 7, 8],
           last7DayMean
            [(1, 138), (2, 10), (3, 10), (4, 10), (5, 10), (6, 10), (7, 10), (8, 0)]) :=
  (claim_C10 c6Data [(1, 138), (2, 10), (3, 10), (4, 10), (5, 10), (6, 10), (7, 10), (8, 0)]
    1 [2, 3, 4, 5, 6, 7, 8] rfl rfl).2 (by decide)

end Model
